import Mathlib

/-!
Shallow embedding of the `emitlog` per-request log buffering writer
(`config.go`, `writer.go`) and verification of its specified properties.

Byte sequences are modelled as `List Nat`; the downstream sink
(`finalWriter : io.Writer`) is modelled by a response oracle
`resp : Nat → Nat × Bool` giving, for the k-th downstream write call, the
returned byte count and whether an error occurred (`true` = non-nil error),
together with a log of the chunks handed to it, kept inside the state.
`SaveRate` (Go `float64`) is modelled as a rational number; the single
`rand.Float64()` draw is passed in explicitly as a rational `r`.
-/

namespace Emitlog

/-- Log severity levels, mirroring the zerolog levels used by `writer.go`. -/
inductive Level where
  | trace
  | debug
  | info
  | warn
  | error
  | fatal
  | panic
deriving DecidableEq, Repr

/-- `Config` from `config.go`: logger settings. `SaveRate` is Go `float64`,
modelled as a rational; `BufferSize` is Go `int`, modelled as `Int`. -/
structure Config where
  SaveRate : ℚ
  BufferingEnabled : Bool
  FlushOnError : Bool
  FlushOnWarn : Bool
  BufferSize : Int
deriving DecidableEq, Repr

/-- `DefaultConfig` from `config.go`. -/
def DefaultConfig : Config :=
  { SaveRate := 5
    BufferingEnabled := true
    FlushOnError := true
    FlushOnWarn := false
    BufferSize := 64 * 1024 }

/-- Mutable state of a `BufferingWriter` (`writer.go`), together with the
observable history of its downstream sink: `downChunks` is the ordered list
of byte chunks handed to `finalWriter.Write`, and `downCalls` the number of
such calls made so far. `buffer` is the `bytes.Buffer` content, `shouldFlush`
the flush flag, `bufferSize` the running byte counter field. -/
structure BWState where
  buffer : List Nat
  shouldFlush : Bool
  bufferSize : Nat
  downChunks : List (List Nat)
  downCalls : Nat
deriving DecidableEq, Repr

/-- `NewBufferingWriter`: fresh state, with an empty buffer, the flag unset
and the byte counter zero (Go zero values), and no downstream activity yet. -/
def NewBufferingWriter : BWState :=
  { buffer := []
    shouldFlush := false
    bufferSize := 0
    downChunks := []
    downCalls := 0 }

/-- One call `bw.finalWriter.Write(p)`: the downstream sink receives chunk
`p` and answers with the oracle's response for this call index. -/
def finalWrite (resp : Nat → Nat × Bool) (s : BWState) (p : List Nat) :
    (Nat × Bool) × BWState :=
  (resp s.downCalls,
   { s with downChunks := s.downChunks ++ [p], downCalls := s.downCalls + 1 })

/-- Whether `sub` occurs at the very start of `data` (byte-wise). -/
def leadsWith : List Nat → List Nat → Bool
  | [], _ => true
  | _ :: _, [] => false
  | a :: as, b :: bs => a == b && leadsWith as bs

/-- `bytes.Contains(data, sub)`: `sub` occurs as a contiguous slice of
`data` (the empty slice is contained in everything). -/
def containsSlice (data sub : List Nat) : Bool :=
  match data with
  | [] => sub.isEmpty
  | _ :: t => leadsWith sub data || containsSlice t sub

/-- The bytes of a string (all markers are ASCII). -/
def strBytes (s : String) : List Nat :=
  s.toList.map Char.toNat

/-- The byte sequence of the severity marker for level name `name`, i.e. the
literal substring searched for by `parseLogLevel`. -/
def levelMarker (name : String) : List Nat :=
  strBytes ("\"level\":\"" ++ name ++ "\"")

/-- `parseLogLevel` from `writer.go`: scan the serialized record for the
first matching severity marker in the fixed order trace, debug, info, warn,
error, fatal, panic; default to `info`. -/
def parseLogLevel (data : List Nat) : Level :=
  if containsSlice data (levelMarker "trace") then Level.trace
  else if containsSlice data (levelMarker "debug") then Level.debug
  else if containsSlice data (levelMarker "info") then Level.info
  else if containsSlice data (levelMarker "warn") then Level.warn
  else if containsSlice data (levelMarker "error") then Level.error
  else if containsSlice data (levelMarker "fatal") then Level.fatal
  else if containsSlice data (levelMarker "panic") then Level.panic
  else Level.info

/-- The `shouldFlushNow` switch in `Write`: error-or-worse severities force
a flush when `FlushOnError` is set, warnings when `FlushOnWarn` is set. -/
def shouldFlushNow (cfg : Config) (level : Level) : Bool :=
  match level with
  | Level.error => cfg.FlushOnError
  | Level.fatal => cfg.FlushOnError
  | Level.panic => cfg.FlushOnError
  | Level.warn => cfg.FlushOnWarn
  | _ => false

/-- The common flush-then-write sequence of the two PASSTHROUGH-entering
branches of `Write`: set the flag, write the whole buffer downstream if
non-empty (its result is discarded) and clear it, then write the current
record and return that call's result. -/
def forceFlushWrite (resp : Nat → Nat × Bool) (s : BWState) (p : List Nat) :
    (Nat × Bool) × BWState :=
  let s1 : BWState := { s with shouldFlush := true }
  let s2 : BWState :=
    if s1.buffer.length > 0 then
      { (finalWrite resp s1 s1.buffer).2 with buffer := [] }
    else s1
  finalWrite resp s2 p

/-- `Write` from `writer.go`. Returns the `(n, err)` pair handed back to the
caller (with `err : Bool`, `true` meaning a non-nil error) and the new
state. In the buffered branch, `bytes.Buffer.Write` returns
`(len(p), nil)`. -/
def Write (cfg : Config) (resp : Nat → Nat × Bool) (s : BWState)
    (p : List Nat) : (Nat × Bool) × BWState :=
  if s.shouldFlush then
    finalWrite resp s p
  else if shouldFlushNow cfg (parseLogLevel p) then
    forceFlushWrite resp s p
  else if (s.bufferSize + p.length : Int) > cfg.BufferSize then
    forceFlushWrite resp s p
  else
    ((p.length, false),
     { s with buffer := s.buffer ++ p, bufferSize := s.bufferSize + p.length })

/-- `Flush` from `writer.go`: write any buffered contents downstream, clear
the buffer, and set the flag. -/
def Flush (resp : Nat → Nat × Bool) (s : BWState) : BWState :=
  let s1 : BWState :=
    if s.buffer.length > 0 then
      { (finalWrite resp s s.buffer).2 with buffer := [] }
    else s
  { s1 with shouldFlush := true }

/-- `ShouldSaveOnSuccess` from `writer.go`, with the `rand.Float64()` draw
passed in as `r`. -/
def ShouldSaveOnSuccess (cfg : Config) (r : ℚ) : Bool :=
  if !cfg.BufferingEnabled then true
  else if cfg.SaveRate ≤ 0 then false
  else if cfg.SaveRate ≥ 100 then true
  else decide (r * 100 < cfg.SaveRate)

/-- `Finalize` from `writer.go`: no-op when already flushed; otherwise save
the buffer downstream when the request failed or sampling says so, then
clear the buffer (but neither the flag nor the byte counter). -/
def Finalize (cfg : Config) (resp : Nat → Nat × Bool) (r : ℚ) (s : BWState)
    (success : Bool) : BWState :=
  if s.shouldFlush then s
  else
    let shouldSave : Bool := if !success then true else ShouldSaveOnSuccess cfg r
    let s1 : BWState :=
      if shouldSave = true ∧ s.buffer.length > 0 then
        (finalWrite resp s s.buffer).2
      else s
    { s1 with buffer := [] }

/-- An operation invoked on a `BufferingWriter` during its lifetime. -/
inductive Op where
  | write (p : List Nat)
  | flushOp
  | finalizeOp (success : Bool) (r : ℚ)

/-- Apply one operation to a state (the return value of `Write` is
discarded; only the state evolution matters for lifetime invariants). -/
def stepOp (cfg : Config) (resp : Nat → Nat × Bool) (s : BWState) :
    Op → BWState
  | Op.write p => (Write cfg resp s p).2
  | Op.flushOp => Flush resp s
  | Op.finalizeOp success r => Finalize cfg resp r s success

/-- The state reached from a fresh writer after a sequence of operations:
every point in the instance's lifetime is of this form. -/
def runOps (cfg : Config) (resp : Nat → Nat × Bool) (ops : List Op) :
    BWState :=
  ops.foldl (stepOp cfg resp) NewBufferingWriter

/-- A downstream sink that always reports a successful write. -/
def respOK : Nat → Nat × Bool := fun _ => (0, false)

/-- The invariant that a flushed writer has an empty buffer. -/
def EmptyInv (s : BWState) : Prop := s.shouldFlush = true → s.buffer = []

/-- The invariant that the byte counter matches the buffer length while the
writer is not flushed. -/
def SizeInv (s : BWState) : Prop :=
  s.shouldFlush = false → s.bufferSize = s.buffer.length

/-- Whether an operation is a finalize call. -/
def Op.isFinalize : Op → Bool
  | Op.finalizeOp _ _ => true
  | _ => false

/-- A configuration with a one-byte budget, used to exercise overflow. -/
def cfgSmall : Config := { DefaultConfig with BufferSize := 1 }

/-- A configuration with buffering disabled and no severity triggers. -/
def cfgNoBuf : Config :=
  { SaveRate := 0, BufferingEnabled := false, FlushOnError := false,
    FlushOnWarn := false, BufferSize := 1024 }

/-- A configuration with `SaveRate = 0` and no severity triggers. -/
def cfgZero : Config :=
  { SaveRate := 0, BufferingEnabled := true, FlushOnError := false,
    FlushOnWarn := false, BufferSize := 1024 }

/-- A configuration that flushes on error-or-worse severities. -/
def cfgErr : Config :=
  { SaveRate := 0, BufferingEnabled := true, FlushOnError := true,
    FlushOnWarn := false, BufferSize := 1024 }

/-- A writer state holding one buffered byte, as reached by one small
buffered write from a fresh writer. -/
def sOneByte : BWState :=
  { buffer := [97], shouldFlush := false, bufferSize := 1,
    downChunks := [], downCalls := 0 }

/-- A downstream sink whose first write fails and later writes succeed. -/
def respFailFirst : Nat → Nat × Bool :=
  fun k => if k = 0 then (0, true) else (15, false)

/-- The operation sequence of the C2 counterexample: one buffered write of
three bytes, then a failure finalize. -/
def opsC2 : List Op := [Op.write [97, 98, 99], Op.finalizeOp false 0]

/-- The state reached after one plain three-byte write under `cfgErr`
against the failing-first downstream. -/
def sC3 : BWState :=
  (Write cfgErr respFailFirst NewBufferingWriter [97, 98, 99]).2

/-- Spec reading of `should_persist_on_success` (§4.2), phrased over the
drawn value `u` in `[0,100)`: if `buffering_enabled` is false, always true;
if `save_rate <= 0`, false; if `save_rate >= 100`, true; otherwise whether
`u` is less than `save_rate`. -/
def shouldPersistOnSuccessSpec (cfg : Config) (u : ℚ) : Bool :=
  if cfg.BufferingEnabled = false then true
  else if cfg.SaveRate ≤ 0 then false
  else if cfg.SaveRate ≥ 100 then true
  else decide (u < cfg.SaveRate)

/-- The fixed priority order of severity names used by the classifier, per
the spec (§4.1). -/
def severityOrder : List (String × Level) :=
  [("trace", Level.trace), ("debug", Level.debug), ("info", Level.info),
   ("warn", Level.warn), ("error", Level.error), ("fatal", Level.fatal),
   ("panic", Level.panic)]

/-- Spec reading of the severity classifier (§4.1): the first severity in
the priority order whose marker occurs in the record; `info` when no marker
matches. -/
def classifySpec (data : List Nat) : Level :=
  match severityOrder.find? (fun pr => containsSlice data (levelMarker pr.1)) with
  | some pr => pr.2
  | none => Level.info

/-! ### Helper lemmas -/

theorem forceFlushWrite_snd (resp : Nat → Nat × Bool) (s : BWState)
    (p : List Nat) :
    (forceFlushWrite resp s p).2 =
      if s.buffer = [] then
        { s with shouldFlush := true
                 downChunks := s.downChunks ++ [p]
                 downCalls := s.downCalls + 1 }
      else
        { s with shouldFlush := true
                 buffer := []
                 downChunks := s.downChunks ++ [s.buffer, p]
                 downCalls := s.downCalls + 2 } := by
  by_cases h : s.buffer = [] <;>
    simp [forceFlushWrite, finalWrite, h, List.length_pos]

theorem forceFlushWrite_fst (resp : Nat → Nat × Bool) (s : BWState)
    (p : List Nat) :
    (forceFlushWrite resp s p).1 =
      resp (if s.buffer = [] then s.downCalls else s.downCalls + 1) := by
  by_cases h : s.buffer = [] <;>
    simp [forceFlushWrite, finalWrite, h, List.length_pos]

/-! ### Claim theorems -/

/-- Claim C4: for every configuration (including `SaveRate = 0`) and every
non-empty buffer in an unflushed writer, `Finalize(success=false)` writes
the buffer contents to the downstream sink. -/
theorem C4_finalize_failure_persists (cfg : Config) (resp : Nat → Nat × Bool)
    (r : ℚ) (s : BWState) (hf : s.shouldFlush = false) (hne : s.buffer ≠ []) :
    (Finalize cfg resp r s false).downChunks = s.downChunks ++ [s.buffer] := by
  simp [Finalize, hf, finalWrite, List.length_pos.mpr hne]

/-- Witness for C4 at a concrete input with `SaveRate = 0`. -/
theorem C4_witness :
    (Finalize cfgZero respOK 0 sOneByte false).downChunks
      = sOneByte.downChunks ++ [sOneByte.buffer] :=
  C4_finalize_failure_persists cfgZero respOK 0 sOneByte rfl (by decide)

/-- Claim C5: a write in the BUFFERING state that triggers no severity
flush but overflows the byte budget writes all previously buffered bytes
followed by the record itself downstream, in arrival order, clears the
buffer, and leaves the writer in pass-through mode. -/
theorem C5_overflow_forces_visibility (cfg : Config)
    (resp : Nat → Nat × Bool) (s : BWState) (p : List Nat)
    (hf : s.shouldFlush = false)
    (hnt : shouldFlushNow cfg (parseLogLevel p) = false)
    (hov : (s.bufferSize + p.length : Int) > cfg.BufferSize) :
    (Write cfg resp s p).2.downChunks
        = s.downChunks ++ (if s.buffer = [] then [p] else [s.buffer, p]) ∧
    (Write cfg resp s p).2.buffer = [] ∧
    (Write cfg resp s p).2.shouldFlush = true := by
  by_cases h : s.buffer = [] <;>
    simp [Write, hf, hnt, hov, forceFlushWrite_snd, h]

/-- Witness for C5: a one-byte buffered state overflown against a budget
of one byte. -/
theorem C5_witness :
    (Write cfgSmall respOK sOneByte [98]).2.downChunks
        = sOneByte.downChunks
            ++ (if sOneByte.buffer = [] then [[98]] else [sOneByte.buffer, [98]]) ∧
    (Write cfgSmall respOK sOneByte [98]).2.buffer = [] ∧
    (Write cfgSmall respOK sOneByte [98]).2.shouldFlush = true :=
  C5_overflow_forces_visibility cfgSmall respOK sOneByte [98]
    rfl (by decide) (by decide)

/-- Claim C6: once the flushed flag is set it is never reset; a subsequent
write forwards its record directly downstream (returning the downstream
result) and leaves the buffer untouched, a subsequent flush keeps the flag
set, and a subsequent finalize changes nothing at all (in particular it
performs no downstream write). -/
theorem C6_passthrough_monotonic (cfg : Config) (resp : Nat → Nat × Bool)
    (r : ℚ) (s : BWState) (p : List Nat) (success : Bool)
    (hf : s.shouldFlush = true) :
    (Write cfg resp s p).1 = resp s.downCalls ∧
    (Write cfg resp s p).2 =
      { s with downChunks := s.downChunks ++ [p]
               downCalls := s.downCalls + 1 } ∧
    (Flush resp s).shouldFlush = true ∧
    Finalize cfg resp r s success = s := by
  refine ⟨?_, ?_, ?_, ?_⟩ <;> simp [Write, Flush, Finalize, hf, finalWrite]

/-- Witness for C6 at a concrete flushed state. -/
theorem C6_witness :
    (Write DefaultConfig respOK
        { buffer := [], shouldFlush := true, bufferSize := 0,
          downChunks := [], downCalls := 0 } [99]).1 = respOK 0 ∧
    (Write DefaultConfig respOK
        { buffer := [], shouldFlush := true, bufferSize := 0,
          downChunks := [], downCalls := 0 } [99]).2 =
      { buffer := [], shouldFlush := true, bufferSize := 0,
        downChunks := [] ++ [[99]], downCalls := 0 + 1 } ∧
    (Flush respOK
        { buffer := [], shouldFlush := true, bufferSize := 0,
          downChunks := [], downCalls := 0 }).shouldFlush = true ∧
    Finalize DefaultConfig respOK 0
        { buffer := [], shouldFlush := true, bufferSize := 0,
          downChunks := [], downCalls := 0 } true =
      { buffer := [], shouldFlush := true, bufferSize := 0,
        downChunks := [], downCalls := 0 } :=
  C6_passthrough_monotonic DefaultConfig respOK 0
    { buffer := [], shouldFlush := true, bufferSize := 0,
      downChunks := [], downCalls := 0 } [99] true rfl

/-- Claim C10: a write in the BUFFERING state that triggers no severity
flush and does not overflow returns the full record length and no error
(and simply appends the record to the buffer). -/
theorem C10_buffered_write_returns_len (cfg : Config)
    (resp : Nat → Nat × Bool) (s : BWState) (p : List Nat)
    (hf : s.shouldFlush = false)
    (hnt : shouldFlushNow cfg (parseLogLevel p) = false)
    (hsz : (s.bufferSize + p.length : Int) ≤ cfg.BufferSize) :
    (Write cfg resp s p).1 = (p.length, false) ∧
    (Write cfg resp s p).2.buffer = s.buffer ++ p := by
  constructor <;> simp [Write, hf, hnt, not_lt.mpr hsz]

/-- Witness for C10: a three-byte informational record buffered from the
fresh state. -/
theorem C10_witness :
    (Write DefaultConfig respOK NewBufferingWriter [97, 98, 99]).1
        = (([97, 98, 99] : List Nat).length, false) ∧
    (Write DefaultConfig respOK NewBufferingWriter [97, 98, 99]).2.buffer
        = NewBufferingWriter.buffer ++ [97, 98, 99] :=
  C10_buffered_write_returns_len DefaultConfig respOK NewBufferingWriter
    [97, 98, 99] rfl (by decide) (by decide)

/-- Claim C9: a fresh writer satisfies the invariant that the buffer is
empty whenever the flushed flag is set, and every operation (write, flush,
finalize) preserves it — so a buffered byte can never sit in the buffer of
a pass-through writer and be flushed a second time. -/
theorem C9_flushed_implies_empty (cfg : Config) (resp : Nat → Nat × Bool) :
    EmptyInv NewBufferingWriter ∧
    ∀ (s : BWState) (o : Op), EmptyInv s → EmptyInv (stepOp cfg resp s o) := by
  constructor
  · intro h
    simp [NewBufferingWriter]
  · intro s o h
    cases o with
    | write p =>
      by_cases hf : s.shouldFlush = true
      · intro hx
        simp [stepOp, Write, hf, finalWrite]
        exact h hf
      · have hf2 : s.shouldFlush = false := by simpa using hf
        by_cases ht : shouldFlushNow cfg (parseLogLevel p) = true
        · intro hx
          by_cases hb : s.buffer = [] <;>
            simp [stepOp, Write, hf2, ht, forceFlushWrite_snd, hb]
        · have ht2 : shouldFlushNow cfg (parseLogLevel p) = false := by
            simpa using ht
          by_cases hov : (s.bufferSize + p.length : Int) > cfg.BufferSize
          · intro hx
            by_cases hb : s.buffer = [] <;>
              simp [stepOp, Write, hf2, ht2, hov, forceFlushWrite_snd, hb]
          · intro habs
            simp [stepOp, Write, hf2, ht2, hov] at habs
    | flushOp =>
      intro hx
      by_cases hb : s.buffer = [] <;>
        simp [stepOp, Flush, hb, List.length_pos, finalWrite]
    | finalizeOp success r =>
      by_cases hf : s.shouldFlush = true
      · simpa [stepOp, Finalize, hf] using h
      · have hf2 : s.shouldFlush = false := by simpa using hf
        intro hx
        simp [stepOp, Finalize, hf2]

/-- Witness for C9: the invariant transported across one flush from the
fresh state. -/
theorem C9_witness :
    EmptyInv (stepOp DefaultConfig respOK NewBufferingWriter Op.flushOp) :=
  (C9_flushed_implies_empty DefaultConfig respOK).2 NewBufferingWriter
    Op.flushOp ((C9_flushed_implies_empty DefaultConfig respOK).1)

/-- Claim C7: `ShouldSaveOnSuccess` agrees with the spec reading of
`should_persist_on_success` — always true when buffering is disabled, false
when `SaveRate <= 0`, true when `SaveRate >= 100`, and otherwise compares
the value drawn uniformly from `[0,100)` (the `rand.Float64()` draw `r`
scaled by 100) against `SaveRate`. -/
theorem C7_should_save_refines_spec (cfg : Config) (r : ℚ) :
    ShouldSaveOnSuccess cfg r = shouldPersistOnSuccessSpec cfg (r * 100) := by
  simp [ShouldSaveOnSuccess, shouldPersistOnSuccessSpec]

/-- Claim C8: `parseLogLevel` agrees with the spec reading of the severity
classifier: the first severity in the priority order trace, debug, info,
warn, error, fatal, panic whose marker occurs in the record, defaulting to
`info`. -/
theorem C8_classifier_priority (data : List Nat) :
    parseLogLevel data = classifySpec data := by
  by_cases h1 : containsSlice data (levelMarker "trace") = true <;>
  by_cases h2 : containsSlice data (levelMarker "debug") = true <;>
  by_cases h3 : containsSlice data (levelMarker "info") = true <;>
  by_cases h4 : containsSlice data (levelMarker "warn") = true <;>
  by_cases h5 : containsSlice data (levelMarker "error") = true <;>
  by_cases h6 : containsSlice data (levelMarker "fatal") = true <;>
  by_cases h7 : containsSlice data (levelMarker "panic") = true <;>
    simp [parseLogLevel, classifySpec, severityOrder, List.find?,
      h1, h2, h3, h4, h5, h6, h7]

/-- Claim C1 counterexample: with `BufferingEnabled = false`, a plain
record written to a fresh writer is appended to the buffer and nothing
reaches the downstream sink — `Write` never consults `BufferingEnabled`,
so the record is not forwarded immediately. -/
theorem C1_cex :
    cfgNoBuf.BufferingEnabled = false ∧
    (Write cfgNoBuf respOK NewBufferingWriter [104, 105]).2.buffer
        = [104, 105] ∧
    (Write cfgNoBuf respOK NewBufferingWriter [104, 105]).2.downChunks
        = [] := by
  refine ⟨rfl, ?_, ?_⟩ <;> decide

/-- Claim C1 (amended): `Write` behaves identically whether or not
`BufferingEnabled` is set (records may still be buffered); when
`BufferingEnabled = false`, `Finalize` from an unflushed state with a
non-empty buffer always persists the buffer downstream, for either value
of `success`. -/
theorem C1_buffering_disabled (cfg : Config) (resp : Nat → Nat × Bool)
    (r : ℚ) (s : BWState) (success : Bool) (p : List Nat)
    (hbe : cfg.BufferingEnabled = false)
    (hf : s.shouldFlush = false) (hne : s.buffer ≠ []) :
    Write cfg resp s p = Write { cfg with BufferingEnabled := true } resp s p ∧
    (Finalize cfg resp r s success).downChunks
        = s.downChunks ++ [s.buffer] := by
  constructor
  · rfl
  · have hsave : ShouldSaveOnSuccess cfg r = true := by
      simp [ShouldSaveOnSuccess, hbe]
    cases success <;>
      simp [Finalize, hf, hsave, finalWrite, List.length_pos.mpr hne]

/-- Witness for C1 (amended) at a concrete state with one buffered byte. -/
theorem C1_witness :
    Write cfgNoBuf respOK sOneByte [98]
        = Write { cfgNoBuf with BufferingEnabled := true } respOK sOneByte [98] ∧
    (Finalize cfgNoBuf respOK 0 sOneByte true).downChunks
        = sOneByte.downChunks ++ [sOneByte.buffer] :=
  C1_buffering_disabled cfgNoBuf respOK 0 sOneByte true [98]
    rfl rfl (by decide)

/-- One write or flush operation preserves the size bookkeeping invariant
(finalize operations are excluded: `Finalize` clears the buffer without
resetting the byte counter). -/
theorem sizeInv_step (cfg : Config) (resp : Nat → Nat × Bool) (s : BWState)
    (o : Op) (h : SizeInv s) (ho : o.isFinalize = false) :
    SizeInv (stepOp cfg resp s o) := by
  cases o with
  | write p =>
    by_cases hf : s.shouldFlush = true
    · intro habs
      simp [stepOp, Write, hf, finalWrite] at habs
    · have hf2 : s.shouldFlush = false := by simpa using hf
      by_cases ht : shouldFlushNow cfg (parseLogLevel p) = true
      · intro habs
        by_cases hb : s.buffer = [] <;>
          simp [stepOp, Write, hf2, ht, forceFlushWrite_snd, hb] at habs
      · have ht2 : shouldFlushNow cfg (parseLogLevel p) = false := by
          simpa using ht
        by_cases hov : (s.bufferSize + p.length : Int) > cfg.BufferSize
        · intro habs
          by_cases hb : s.buffer = [] <;>
            simp [stepOp, Write, hf2, ht2, hov, forceFlushWrite_snd, hb]
              at habs
        · intro hx
          have h2 := h hf2
          rw [h2] at hov
          simp [stepOp, Write, hf2, ht2, hov, h2]
  | flushOp =>
    intro habs
    simp [stepOp, Flush] at habs
  | finalizeOp success r =>
    simp [Op.isFinalize] at ho

/-- Claim C2 counterexample: after a three-byte buffered write and a
failure finalize, the flushed flag is still false, the buffer is empty,
yet the byte counter still reads 3 — the counter does not equal the buffer
length at this point of the lifetime. -/
theorem C2_cex :
    (runOps cfgZero respOK opsC2).shouldFlush = false ∧
    (runOps cfgZero respOK opsC2).buffer = [] ∧
    (runOps cfgZero respOK opsC2).bufferSize = 3 := by
  refine ⟨?_, ?_, ?_⟩ <;> decide

/-- Claim C2 (amended): at every point of the lifetime reached through
write and flush operations only (no finalize), while the flushed flag is
false the byte counter equals the exact byte length of the buffer; a
finalize call that does not set the flag clears the buffer without
resetting the counter, so the equality can fail afterwards. -/
theorem C2_size_inv_without_finalize (cfg : Config)
    (resp : Nat → Nat × Bool) (ops : List Op)
    (hops : ∀ o ∈ ops, Op.isFinalize o = false) :
    SizeInv (runOps cfg resp ops) := by
  suffices h : ∀ (l : List Op) (s : BWState), SizeInv s →
      (∀ o ∈ l, Op.isFinalize o = false) →
      SizeInv (l.foldl (stepOp cfg resp) s) by
    refine h ops NewBufferingWriter ?_ hops
    intro hx
    rfl
  intro l
  induction l with
  | nil =>
    intro s hs hl
    simpa using hs
  | cons a t ih =>
    intro s hs hl
    simp only [List.foldl_cons]
    refine ih (stepOp cfg resp s a) ?_ ?_
    · exact sizeInv_step cfg resp s a hs (hl a (by simp))
    · intro o ho
      exact hl o (by simp [ho])

/-- Witness for C2 (amended): one buffered write followed by a flush. -/
theorem C2_witness :
    SizeInv (runOps cfgZero respOK [Op.write [97, 98, 99], Op.flushOp]) :=
  C2_size_inv_without_finalize cfgZero respOK
    [Op.write [97, 98, 99], Op.flushOp] (by decide)

/-- Claim C3 counterexample: from a state holding three buffered bytes, a
forced flush triggered by an error-level record performs two downstream
writes (first the buffered bytes, then the record); the first downstream
write fails, yet `Write` reports no error to the caller — the flush
write's result is discarded. -/
theorem C3_cex :
    (Write cfgErr respFailFirst sC3 (levelMarker "error")).2.downChunks
        = [[97, 98, 99], levelMarker "error"] ∧
    respFailFirst 0 = (0, true) ∧
    (Write cfgErr respFailFirst sC3 (levelMarker "error")).1
        = (15, false) := by
  refine ⟨?_, ?_, ?_⟩ <;> decide

/-- Claim C3 (amended): in a forced or overflow flush from a non-empty
buffer, the value returned by `Write` is exactly the downstream response
to the second downstream call of that `Write` call — the write of the
record itself — so a failure of the record's own downstream write
surfaces, while the response to the first call (the flush of previously
buffered contents) never influences the returned value. -/
theorem C3_record_write_error_surfaces (cfg : Config)
    (resp : Nat → Nat × Bool) (s : BWState) (p : List Nat)
    (hf : s.shouldFlush = false) (hne : s.buffer ≠ [])
    (ht : shouldFlushNow cfg (parseLogLevel p) = true ∨
          (s.bufferSize + p.length : Int) > cfg.BufferSize) :
    (Write cfg resp s p).1 = resp (s.downCalls + 1) := by
  by_cases htr : shouldFlushNow cfg (parseLogLevel p) = true
  · simp [Write, hf, htr, forceFlushWrite_fst, hne]
  · have hov : (s.bufferSize + p.length : Int) > cfg.BufferSize := by
      rcases ht with h1 | h2
      · exact absurd h1 htr
      · exact h2
    have htr2 : shouldFlushNow cfg (parseLogLevel p) = false := by
      simpa using htr
    simp [Write, hf, htr2, hov, forceFlushWrite_fst, hne]

/-- Witness for C3 (amended): an error-level record flushing one buffered
byte against the failing-first downstream. -/
theorem C3_witness :
    (Write cfgErr respFailFirst sOneByte (levelMarker "error")).1
        = respFailFirst (sOneByte.downCalls + 1) :=
  C3_record_write_error_surfaces cfgErr respFailFirst sOneByte
    (levelMarker "error") rfl (by decide) (Or.inl (by decide))

end Emitlog
